import Mathlib

/-!
Verification of the deployment orchestration in src/deploy.js of the
guruavatar-cms repository.

The JavaScript program is embedded shallowly: every remote interaction is a
pure function of the answers the environment gives to the issued commands,
and the remote target directory together with the shell scripts the program
sends (backup, installation probe, restart) is modelled as an explicit state
machine that follows the shell semantics of those scripts line by line.
-/

namespace GuruavatarDeploy

/-! ## retryOperation (src/deploy.js lines 110-120)

`retryOperation(operation, maxRetries = 3, delay = 5000)` runs a
`for (let i = 0; i < maxRetries; i++)` loop: each iteration invokes the
operation; on success it returns the value; on failure at the last index
(`i === maxRetries - 1`) it rethrows, otherwise it sleeps the fixed delay
and continues.  If the loop never runs (non-positive bound) the function
falls through and resolves with `undefined`.

The embedding takes the outcome of the i-th invocation from `op : Nat →
Except E A` and returns the number of invocations made, the number of
fixed-delay sleeps performed, and the final result. -/

/-- Result of a `retryOperation` call: a returned value, a rethrown error of
the final attempt, or the `undefined` fall-through when the loop body never
executed. -/
inductive RetryResult (E A : Type) where
  | success (a : A)
  | failure (e : E)
  | undef
  deriving DecidableEq, Repr

/-- The retry loop from index `i` upward, bounded by `maxRetries` (an `Int`,
since the JavaScript bound may be any number and a non-positive bound skips
the loop).  Returns (invocations, sleeps, result). -/
def retryGo {E A : Type} (op : Nat → Except E A) (maxRetries : Int) (i : Nat) :
    Nat × Nat × RetryResult E A :=
  if _h : (i : Int) < maxRetries then
    match op i with
    | Except.ok a => (1, 0, RetryResult.success a)
    | Except.error e =>
      if (i : Int) = maxRetries - 1 then (1, 0, RetryResult.failure e)
      else
        let r := retryGo op maxRetries (i + 1)
        (r.1 + 1, r.2.1 + 1, r.2.2)
  else (0, 0, RetryResult.undef)
termination_by (maxRetries - i).toNat
decreasing_by
  omega

/-- `retryOperation` starts the loop at `i = 0` (src/deploy.js line 111). -/
def retryOperation {E A : Type} (op : Nat → Except E A) (maxRetries : Int) :
    Nat × Nat × RetryResult E A :=
  retryGo op maxRetries 0

lemma retryGo_fail {E A : Type} (op : Nat → Except E A) (es : Nat → E)
    (hop : ∀ i, op i = Except.error (es i)) (N : Nat) :
    ∀ d i, i + d + 1 = N →
      retryGo op (N : Int) i = (d + 1, d, RetryResult.failure (es (N - 1))) := by
  intro d
  induction d with
  | zero =>
    intro i hi
    rw [retryGo.eq_def]
    have h1 : (i : Int) < (N : Int) := by omega
    have h2 : (i : Int) = (N : Int) - 1 := by omega
    have h3 : i = N - 1 := by omega
    simp [h1, h2, hop i]
    rw [h3]
  | succ d ih =>
    intro i hi
    rw [retryGo.eq_def]
    have h1 : (i : Int) < (N : Int) := by omega
    have h2 : ¬ ((i : Int) = (N : Int) - 1) := by omega
    have h3 := ih (i + 1) (by omega)
    simp [h1, h2, hop i, h3]

lemma retryGo_success {E A : Type} (op : Nat → Except E A) (a : A) (k : Nat)
    (herr : ∀ j, j < k → ∃ e, op j = Except.error e)
    (hok : op k = Except.ok a) (N : Nat) (hk : k < N) :
    ∀ d, d ≤ k →
      retryGo op (N : Int) (k - d) = (d + 1, d, RetryResult.success a) := by
  intro d
  induction d with
  | zero =>
    intro _
    rw [retryGo.eq_def]
    have h1 : ((k : Nat) : Int) < (N : Int) := by omega
    simp [h1, hok]
  | succ d ih =>
    intro hd
    rw [retryGo.eq_def]
    have hlt : k - (d + 1) < k := by omega
    obtain ⟨e, he⟩ := herr (k - (d + 1)) hlt
    have h1 : ((k - (d + 1) : Nat) : Int) < (N : Int) := by omega
    have h2 : ¬ (((k - (d + 1) : Nat) : Int) = (N : Int) - 1) := by omega
    have h3 : k - (d + 1) + 1 = k - d := by omega
    have h4 := ih (by omega)
    simp [h1, h2, he, h3, h4]

/-! ## sshExecute (src/deploy.js lines 134-148)

One attempt awaits `ssh.execCommand(command, ...)`.  The node-ssh
`execCommand` call resolves with an object carrying `stdout`, `stderr` and
the exit `code`; it rejects only on a transport-level failure, never because
of the exit status.  The source destructures only `stdout` and `stderr`,
logs a warning when `stderr` is non-empty, and returns them.  The exit code
is never inspected anywhere in the file. -/

/-- What the remote shell produced for one command: its streams and exit
status, exactly the fields node-ssh resolves `execCommand` with. -/
structure ExecResult where
  stdout : String
  stderr : String
  code : Int
  deriving DecidableEq, Repr

/-- A transport-level failure of the underlying SSH channel: the only way
the `execCommand` promise rejects. -/
inductive TransportError where
  | dropped
  deriving DecidableEq, Repr

/-- One attempt of the `sshExecute` body (lines 135-147): propagate a
transport rejection; otherwise return `(stdout, stderr)`, whatever the exit
code, logging a warning (and nothing more) when stderr is non-empty. -/
def sshAttempt (raw : Except TransportError ExecResult) :
    Except TransportError (String × String) :=
  match raw with
  | Except.error t => Except.error t
  | Except.ok r => Except.ok (r.stdout, r.stderr)

/-- `sshExecute` wraps the attempt in `retryOperation` with the default
bound of 3 attempts; `raws i` is what the transport gives on attempt `i`. -/
def sshExecute (raws : Nat → Except TransportError ExecResult) :
    Nat × Nat × RetryResult TransportError (String × String) :=
  retryOperation (fun i => sshAttempt (raws i)) ((3 : Nat) : Int)

/-! ## restartStrapi (src/deploy.js lines 226-251)

The restart script sent to the remote shell probes the supervisor
(`pm2 describe strapi-app`), reloads the service when the probe exits 0,
starts it fresh otherwise, and then saves the process list; afterwards the
function issues a read-only `pm2 info` query for the Node version.  The
supervisor is modelled by whether `strapi-app` is known to it: `describe`
exits 0 exactly when it is known, `start` makes it known, `reload` keeps
it known. -/

/-- Supervisor state: whether `strapi-app` is known to pm2, and whether the
process list has been saved. -/
structure Pm2State where
  known : Bool
  saved : Bool
  deriving DecidableEq, Repr

/-- The supervisor-facing actions the restart code can issue. -/
inductive PmAct where
  | probe
  | reload
  | start
  | save
  | infoQuery
  deriving DecidableEq, Repr

/-- `restartStrapi`: the actions issued against the supervisor, in order,
and the supervisor state afterwards. -/
def restartStrapi (s : Pm2State) : List PmAct × Pm2State :=
  if s.known then ([PmAct.probe, PmAct.reload, PmAct.save, PmAct.infoQuery], ⟨true, true⟩)
  else ([PmAct.probe, PmAct.start, PmAct.save, PmAct.infoQuery], ⟨true, true⟩)

/-! ## checkDiskSpace (src/deploy.js lines 97-103)

The free space is read with `df -h ... | awk (print $4)`, a humanized
figure such as `980M` or `2.5G`: a numeral followed by a unit letter.
`parseFloat` of that string yields the bare numeral, discarding the unit.
The code throws iff `parseFloat(stdout) < 1`, with the comment
`Less than 1GB available`. -/

/-- Unit suffix `df -h` appends to the free-space figure. -/
inductive DfUnit where
  | K
  | M
  | G
  | T
  deriving DecidableEq, Repr

/-- How many gigabytes one of the given unit is worth (1024-based, as df
uses binary prefixes). -/
def DfUnit.gb : DfUnit → ℚ
  | DfUnit.K => 1 / (1024 * 1024)
  | DfUnit.M => 1 / 1024
  | DfUnit.G => 1
  | DfUnit.T => 1024

/-- The stdout of the free-space query: the numeral and the unit letter
`df -h` printed. -/
structure DfStdout where
  value : ℚ
  unit : DfUnit
  deriving DecidableEq, Repr

/-- JavaScript `parseFloat` on the df figure: reads the leading numeral and
ignores the trailing unit letter. -/
def parseFloatDf (s : DfStdout) : ℚ := s.value

/-- The free space the query actually reported, in gigabytes. -/
def dfFreeGB (s : DfStdout) : ℚ := s.value * s.unit.gb

/-- The guard of the throw in `checkDiskSpace` (line 100): the function
raises its error iff `parseFloat(stdout) < 1`. -/
def checkDiskSpaceThrows (s : DfStdout) : Bool := parseFloatDf s < 1

/-! ## The deploy run (src/deploy.js lines 253-326)

`deploy()` is embedded as a function of an environment record that fixes,
up front, the answer the outside world gives to each step the run may
attempt: whether each command (after its internal retries) resolves, what
the free-space query printed, and the state of the remote target directory.
The remote directory is tracked as explicit state, and the shell scripts
the program sends are given their shell semantics:

* installation probe (lines 152-158): `installed` iff the directory holds a
  `package.json` mentioning strapi, i.e. iff it is non-empty with content
  satisfying the abstract `hasStrapi` predicate;
* backup script (lines 177-185): if the directory exists and `ls -A` is
  non-empty, `cp -R` it to a timestamped sibling and echo that path,
  otherwise echo the `no_backup_needed` sentinel;
* rollback command (line 302): `rm -rf target && mv backup target`.

Directory contents are abstract values of a type `C`; only the identity of
a content matters to the claims, never its structure.

The run result records the ordered list of remote commands issued, the
terminal outcome, the recorded backup identifier, the final state of the
target directory, and the cleanup facts of the `finally` block. -/

/-- The remote commands `deploy` can issue over the session, one constructor
per `sshExecute`/`putFile` call site in the source, in-order. -/
inductive RCmd where
  | dfQuery
  | mkdirTarget
  | installQuery
  | nodeQuery
  | backupCmd
  | putFileCmd
  | extractCmd
  | uploadsCmd
  | buildCmd
  | chownCmd
  | chmodCmd
  | restartScript
  | versionQuery
  | pm2StartupCmd
  | rollbackRestore
  deriving DecidableEq, Repr

/-- The destructive remote mutations named by the backup-before-mutate
invariant: artifact extraction over the target directory, dependency
installation plus build (one `npm install && npm run build` command), and
the service restart script. -/
def RCmd.destructive : RCmd → Bool
  | RCmd.extractCmd => true
  | RCmd.buildCmd => true
  | RCmd.restartScript => true
  | _ => false

/-- State of the remote target directory: missing, present but empty, or
holding some content. -/
inductive DirState (C : Type) where
  | absent
  | emptyDir
  | filled (c : C)
  deriving DecidableEq, Repr

/-- `mkdir -p` on the target (line 164): creates it when absent, otherwise
leaves it alone. -/
def mkdirP {C : Type} : DirState C → DirState C
  | DirState.absent => DirState.emptyDir
  | s => s

/-- The `backupDir` variable of `deploy` (line 254): the empty string it is
initialised with, the `no_backup_needed` sentinel, or a concrete
timestamped path whose copy holds content `c`.  The three JavaScript string
values are pairwise distinct, which this inductive mirrors. -/
inductive BackupId (C : Type) where
  | unset
  | sentinel
  | snap (c : C)
  deriving DecidableEq, Repr

/-- Whether the recorded backup identifier is a concrete snapshot path:
the JavaScript test `backupDir && backupDir !== 'no_backup_needed'` of
line 299. -/
def BackupId.isSnap {C : Type} : BackupId C → Bool
  | BackupId.snap _ => true
  | _ => false

/-- Terminal outcome of one run, as observable from the source:
the success log (line 296), the catch block that could not roll back
(line 309), a completed rollback (lines 303-304), a failed rollback
(line 306), or the `process.exit(1)` refusal when strapi is not installed
(line 270). -/
inductive Outcome where
  | success
  | failedNoRollback
  | rolledBack
  | rollbackFailed
  | exitedNotInstalled
  deriving DecidableEq, Repr

/-- Everything the outside world decides about one run: whether each
command (after its internal retries) resolves, the stdout of the free-space
query, the initial target directory state, whether its content counts as a
strapi installation, the contents left behind by each mutation, connection
liveness at the two `ssh.isConnected()` checks, and the local-zip facts of
the `finally` block. -/
structure Env (C : Type) where
  /-- `validateEnvironment()` (line 256) succeeds. -/
  envValid : Bool
  /-- `zipSourceFiles` (line 259) resolves. -/
  zipOk : Bool
  /-- `sshConnect()` (line 261) resolves after its retries. -/
  connectOk : Bool
  /-- Free-space query: `none` when the command itself failed, otherwise
  the printed figure. -/
  dfOut : Option DfStdout
  /-- `ensureRemoteDir` command resolves. -/
  mkdirOk : Bool
  /-- The installation-probe command resolves (its answer is computed from
  the directory state). -/
  installQueryOk : Bool
  /-- Whether a directory content holds a `package.json` naming strapi. -/
  hasStrapi : C → Bool
  /-- `ensureNodeVersion` resolves and the version matches. -/
  nodeOk : Bool
  /-- The backup command resolves (its stdout is computed from the
  directory state). -/
  backupOk : Bool
  /-- Target directory state when the run starts. -/
  target : DirState C
  /-- `ssh.putFile` resolves. -/
  putFileOk : Bool
  /-- Content after `update.zip` landed in the target. -/
  cPut : C
  /-- State the target is left in when `putFile` fails midway. -/
  dPutFail : DirState C
  /-- The unzip command resolves. -/
  extractOk : Bool
  cExtract : C
  dExtractFail : DirState C
  /-- `ensureUploadsDirectory` resolves. -/
  uploadsOk : Bool
  cUploads : C
  dUploadsFail : DirState C
  /-- `npm install && npm run build` resolves. -/
  buildOk : Bool
  cBuild : C
  dBuildFail : DirState C
  chownOk : Bool
  chmodOk : Bool
  /-- The restart script command resolves. -/
  restartOk : Bool
  /-- The `pm2 info` version query resolves. -/
  versionOk : Bool
  /-- `updatePM2Startup` resolves. -/
  pm2StartupOk : Bool
  /-- `ssh.isConnected()` at line 299, given the session ever came up. -/
  catchConnected : Bool
  /-- The `rm -rf target && mv backup target` command resolves. -/
  rollbackOk : Bool
  /-- State the target is left in when that command fails midway. -/
  dRollbackFail : DirState C
  /-- The restart script resolves when reissued during rollback. -/
  restart2Ok : Bool
  /-- The version query resolves during the rollback restart. -/
  version2Ok : Bool
  /-- `ssh.isConnected()` at line 312, given the session ever came up. -/
  finallyConnected : Bool
  /-- `fs.existsSync('strapi-source.zip')` at line 318. -/
  zipOnDisk : Bool
  /-- `fsp.unlink` resolves. -/
  unlinkOk : Bool

/-- Observable result of one run. -/
structure RunResult (C : Type) where
  /-- Remote commands issued over the session, in order. -/
  trace : List RCmd
  outcome : Outcome
  /-- The backup command completed and returned an identifier. -/
  backupReturned : Bool
  backupId : BackupId C
  /-- Target directory state when the run ends. -/
  finalTarget : DirState C
  /-- The session came up at some point during the run. -/
  everConnected : Bool
  /-- `ssh.dispose()` was called. -/
  disposed : Bool
  /-- The local `strapi-source.zip` removal was attempted. -/
  unlinkTried : Bool
  /-- That removal failed and the failure was logged (line 320). -/
  unlinkFailedLogged : Bool
  /-- `process.exit(1)` fired, skipping catch and finally. -/
  exitedEarly : Bool
  deriving Repr

/-- The `finally` block (lines 311-322): dispose the session iff it is
still connected, then try to unlink the local zip iff it exists, logging a
failed unlink without changing the outcome. -/
def runFinally {C : Type} (e : Env C) (t : List RCmd) (connUp : Bool)
    (o : Outcome) (bRet : Bool) (bId : BackupId C) (tgt : DirState C) :
    RunResult C :=
  { trace := t
    outcome := o
    backupReturned := bRet
    backupId := bId
    finalTarget := tgt
    everConnected := connUp
    disposed := connUp && e.finallyConnected
    unlinkTried := e.zipOnDisk
    unlinkFailedLogged := e.zipOnDisk && !e.unlinkOk
    exitedEarly := false }

/-- The catch block (lines 297-310): roll back only when the session is
still connected and `backupDir` is a truthy non-sentinel path; the rollback
issues `rm -rf target && mv backup target` and, if that resolves, reissues
the restart (script, then version query); any failure inside the rollback
gives the rollback-failed outcome.  In every other case it only logs that
no valid rollback is possible. -/
def runCatch {C : Type} (e : Env C) (t : List RCmd) (connUp : Bool)
    (bRet : Bool) (bId : BackupId C) (tgt : DirState C) : RunResult C :=
  match bId with
  | BackupId.snap c =>
    if connUp && e.catchConnected then
      if e.rollbackOk then
        if e.restart2Ok then
          if e.version2Ok then
            runFinally e (t ++ [RCmd.rollbackRestore, RCmd.restartScript, RCmd.versionQuery])
              connUp Outcome.rolledBack bRet bId (DirState.filled c)
          else
            runFinally e (t ++ [RCmd.rollbackRestore, RCmd.restartScript, RCmd.versionQuery])
              connUp Outcome.rollbackFailed bRet bId (DirState.filled c)
        else
          runFinally e (t ++ [RCmd.rollbackRestore, RCmd.restartScript])
            connUp Outcome.rollbackFailed bRet bId (DirState.filled c)
      else
        runFinally e (t ++ [RCmd.rollbackRestore])
          connUp Outcome.rollbackFailed bRet bId e.dRollbackFail
    else
      runFinally e t connUp Outcome.failedNoRollback bRet bId tgt
  | _ => runFinally e t connUp Outcome.failedNoRollback bRet bId tgt

/-- The remote commands issued up to and including the backup step. -/
def preTrace : List RCmd :=
  [RCmd.dfQuery, RCmd.mkdirTarget, RCmd.installQuery, RCmd.nodeQuery, RCmd.backupCmd]

/-- The forward steps after a backup identifier was recorded
(lines 282-296), each handing any failure to the catch block with the trace
issued so far. -/
def deployAfterBackup {C : Type} (e : Env C) (pre : List RCmd)
    (bId : BackupId C) (_tgt : DirState C) : RunResult C :=
  if !e.putFileOk then
    runCatch e (pre ++ [RCmd.putFileCmd]) true true bId e.dPutFail
  else if !e.extractOk then
    runCatch e (pre ++ [RCmd.putFileCmd, RCmd.extractCmd]) true true bId e.dExtractFail
  else if !e.uploadsOk then
    runCatch e (pre ++ [RCmd.putFileCmd, RCmd.extractCmd, RCmd.uploadsCmd]) true true bId
      e.dUploadsFail
  else if !e.buildOk then
    runCatch e (pre ++ [RCmd.putFileCmd, RCmd.extractCmd, RCmd.uploadsCmd, RCmd.buildCmd])
      true true bId e.dBuildFail
  else if !e.chownOk then
    runCatch e
      (pre ++ [RCmd.putFileCmd, RCmd.extractCmd, RCmd.uploadsCmd, RCmd.buildCmd, RCmd.chownCmd])
      true true bId (DirState.filled e.cBuild)
  else if !e.chmodOk then
    runCatch e
      (pre ++ [RCmd.putFileCmd, RCmd.extractCmd, RCmd.uploadsCmd, RCmd.buildCmd, RCmd.chownCmd,
        RCmd.chmodCmd])
      true true bId (DirState.filled e.cBuild)
  else if !e.restartOk then
    runCatch e
      (pre ++ [RCmd.putFileCmd, RCmd.extractCmd, RCmd.uploadsCmd, RCmd.buildCmd, RCmd.chownCmd,
        RCmd.chmodCmd, RCmd.restartScript])
      true true bId (DirState.filled e.cBuild)
  else if !e.versionOk then
    runCatch e
      (pre ++ [RCmd.putFileCmd, RCmd.extractCmd, RCmd.uploadsCmd, RCmd.buildCmd, RCmd.chownCmd,
        RCmd.chmodCmd, RCmd.restartScript, RCmd.versionQuery])
      true true bId (DirState.filled e.cBuild)
  else if !e.pm2StartupOk then
    runCatch e
      (pre ++ [RCmd.putFileCmd, RCmd.extractCmd, RCmd.uploadsCmd, RCmd.buildCmd, RCmd.chownCmd,
        RCmd.chmodCmd, RCmd.restartScript, RCmd.versionQuery, RCmd.pm2StartupCmd])
      true true bId (DirState.filled e.cBuild)
  else
    runFinally e
      (pre ++ [RCmd.putFileCmd, RCmd.extractCmd, RCmd.uploadsCmd, RCmd.buildCmd, RCmd.chownCmd,
        RCmd.chmodCmd, RCmd.restartScript, RCmd.versionQuery, RCmd.pm2StartupCmd])
      true Outcome.success true bId (DirState.filled e.cBuild)

/-- The whole `deploy()` run (lines 253-326), sequencing validate, zip,
connect, disk check, mkdir, installation gate, node check, backup, and the
mutating tail, with the catch and finally blocks of the source.  The
`process.exit(1)` refusal at line 270 ends the process at once: neither the
catch nor the finally block runs on that path. -/
def deploy {C : Type} (e : Env C) : RunResult C :=
  if !e.envValid then runCatch e [] false false BackupId.unset e.target
  else if !e.zipOk then runCatch e [] false false BackupId.unset e.target
  else if !e.connectOk then runCatch e [] false false BackupId.unset e.target
  else
    match e.dfOut with
    | none => runCatch e [RCmd.dfQuery] true false BackupId.unset e.target
    | some s =>
      if checkDiskSpaceThrows s then
        runCatch e [RCmd.dfQuery] true false BackupId.unset e.target
      else if !e.mkdirOk then
        runCatch e [RCmd.dfQuery, RCmd.mkdirTarget] true false BackupId.unset e.target
      else if !e.installQueryOk then
        runCatch e [RCmd.dfQuery, RCmd.mkdirTarget, RCmd.installQuery] true false
          BackupId.unset (mkdirP e.target)
      else
        match mkdirP e.target with
        | DirState.filled c =>
          if !(e.hasStrapi c) then
            { trace := [RCmd.dfQuery, RCmd.mkdirTarget, RCmd.installQuery]
              outcome := Outcome.exitedNotInstalled
              backupReturned := false
              backupId := BackupId.unset
              finalTarget := DirState.filled c
              everConnected := true
              disposed := false
              unlinkTried := false
              unlinkFailedLogged := false
              exitedEarly := true }
          else if !e.nodeOk then
            runCatch e [RCmd.dfQuery, RCmd.mkdirTarget, RCmd.installQuery, RCmd.nodeQuery]
              true false BackupId.unset (DirState.filled c)
          else if !e.backupOk then
            runCatch e
              [RCmd.dfQuery, RCmd.mkdirTarget, RCmd.installQuery, RCmd.nodeQuery, RCmd.backupCmd]
              true false BackupId.unset (DirState.filled c)
          else
            deployAfterBackup e preTrace (BackupId.snap c) (DirState.filled c)
        | t1 =>
          { trace := [RCmd.dfQuery, RCmd.mkdirTarget, RCmd.installQuery]
            outcome := Outcome.exitedNotInstalled
            backupReturned := false
            backupId := BackupId.unset
            finalTarget := t1
            everConnected := true
            disposed := false
            unlinkTried := false
            unlinkFailedLogged := false
            exitedEarly := true }

/-- An environment in which every command resolves, the target directory
initially holds content `1` counting as a strapi installation, the
free-space query prints `10G`, and the local zip exists at cleanup. -/
def envAllOk : Env Nat :=
  { envValid := true
    zipOk := true
    connectOk := true
    dfOut := some ⟨10, DfUnit.G⟩
    mkdirOk := true
    installQueryOk := true
    hasStrapi := fun _ => true
    nodeOk := true
    backupOk := true
    target := DirState.filled 1
    putFileOk := true
    cPut := 2
    dPutFail := DirState.filled 2
    extractOk := true
    cExtract := 3
    dExtractFail := DirState.filled 3
    uploadsOk := true
    cUploads := 4
    dUploadsFail := DirState.filled 4
    buildOk := true
    cBuild := 5
    dBuildFail := DirState.filled 5
    chownOk := true
    chmodOk := true
    restartOk := true
    versionOk := true
    pm2StartupOk := true
    catchConnected := true
    rollbackOk := true
    dRollbackFail := DirState.absent
    restart2Ok := true
    version2Ok := true
    finallyConnected := true
    zipOnDisk := true
    unlinkOk := true }

/-! ## Claim theorems -/

/-- C4: for every `maxAttempts` N at least 1, the retrying executor invokes
a perpetually failing operation exactly N times, sleeping the fixed delay
between attempts (N - 1 sleeps), and propagates the error of the final,
N-th attempt; and as soon as an attempt succeeds (the k-th, after k failed
ones) it returns that result with exactly k + 1 invocations and no further
attempts. -/
theorem retry_contract (E A : Type) (N : Nat) (hN : 1 ≤ N) :
    (∀ (es : Nat → E) (op : Nat → Except E A),
        (∀ i, op i = Except.error (es i)) →
        retryOperation op (N : Int) = (N, N - 1, RetryResult.failure (es (N - 1)))) ∧
    (∀ (op : Nat → Except E A) (a : A) (k : Nat),
        k < N → (∀ j, j < k → ∃ e, op j = Except.error e) → op k = Except.ok a →
        retryOperation op (N : Int) = (k + 1, k, RetryResult.success a)) := by
  constructor
  · intro es op hop
    have h := retryGo_fail op es hop N (N - 1) 0 (by omega)
    have h2 : N - 1 + 1 = N := by omega
    rw [retryOperation, h, h2]
  · intro op a k hk herr hok
    have h := retryGo_success op a k herr hok N hk k (le_refl k)
    have h2 : k - k = 0 := by omega
    rw [retryOperation, ← h2, h]

/-- Witness for C4 at concrete inputs: three attempts of an always-failing
operation, and an operation failing once then succeeding. -/
theorem retry_contract_witness :
    retryOperation (fun i => (Except.error i : Except Nat Nat)) ((3 : Nat) : Int)
      = (3, 2, RetryResult.failure 2) ∧
    retryOperation (fun i => if i < 1 then (Except.error i : Except Nat Nat) else Except.ok 7)
      ((3 : Nat) : Int)
      = (2, 1, RetryResult.success 7) := by
  constructor
  · exact (retry_contract Nat Nat 3 (by omega)).1 (fun i => i) _ (fun i => rfl)
  · exact (retry_contract Nat Nat 3 (by omega)).2 _ 7 1 (by omega)
      (fun j hj => ⟨j, by simp [hj]⟩) (by simp)

/-- C10: invoking the retrying executor with a non-positive `maxAttempts`
returns at once with the `undefined` fall-through value: the operation is
never invoked, nothing sleeps, and no error is raised. -/
theorem retry_nonpositive (E A : Type) (z : Int) (hz : z ≤ 0)
    (op : Nat → Except E A) :
    retryOperation op z = (0, 0, RetryResult.undef) := by
  rw [retryOperation, retryGo.eq_def]
  have h : ¬ (((0 : Nat) : Int) < z) := by omega
  rw [dif_neg h]

/-- Witness for C10 at `maxAttempts = 0` and at a negative value. -/
theorem retry_nonpositive_witness :
    retryOperation (fun i => (Except.error i : Except Nat Nat)) 0
      = (0, 0, RetryResult.undef) ∧
    retryOperation (fun i => (Except.error i : Except Nat Nat)) (-2)
      = (0, 0, RetryResult.undef) :=
  ⟨retry_nonpositive Nat Nat 0 (by omega) _, retry_nonpositive Nat Nat (-2) (by omega) _⟩

/-- C5 counterexample: a remote command whose exit status is 1 (and whose
streams are empty) is NOT surfaced as an error by `sshExecute` — the call
returns successfully after a single attempt with the streams, refuting the
claim that a non-zero exit status is surfaced as a command error. -/
theorem exit_status_counterexample :
    sshExecute (fun _ => Except.ok ⟨"", "", 1⟩)
      = (1, 0, RetryResult.success ("", "")) := by
  rw [sshExecute, retryOperation, retryGo.eq_def]
  norm_num [sshAttempt]

/-- C5 amended: success versus failure of a remote command run through
`sshExecute` is determined by the transport outcome alone — a resolving
`execCommand` yields success whatever the exit status and stderr (a
non-empty stderr with zero exit status is merely logged, and a non-zero
exit status is not surfaced as an error either), while a transport
rejection is retried and finally propagated. -/
theorem ssh_failure_semantics (r : ExecResult) :
    sshExecute (fun _ => Except.ok r)
      = (1, 0, RetryResult.success (r.stdout, r.stderr)) ∧
    sshExecute (fun _ => Except.error TransportError.dropped)
      = (3, 2, RetryResult.failure TransportError.dropped) := by
  constructor
  · rw [sshExecute, retryOperation, retryGo.eq_def]
    norm_num [sshAttempt]
  · exact retryGo_fail (fun _ => Except.error TransportError.dropped)
      (fun _ => TransportError.dropped) (fun _ => rfl) 3 2 0 (by omega)

/-- C7: the restart operation probes the supervisor first; when the service
is already present it reloads in place (no start issued), when absent it
starts it fresh; and since either path leaves the service present, a second
consecutive restart always reloads — never a duplicate start. -/
theorem restart_idempotent (sv sv2 : Bool) :
    (restartStrapi ⟨true, sv⟩).1
      = [PmAct.probe, PmAct.reload, PmAct.save, PmAct.infoQuery] ∧
    (restartStrapi ⟨false, sv2⟩).1
      = [PmAct.probe, PmAct.start, PmAct.save, PmAct.infoQuery] ∧
    ∀ s : Pm2State,
      (restartStrapi (restartStrapi s).2).1
        = [PmAct.probe, PmAct.reload, PmAct.save, PmAct.infoQuery] := by
  refine ⟨rfl, rfl, ?_⟩
  intro s
  rcases s with ⟨k, sv3⟩
  cases k <;> rfl

/-- Whether the command `x` occurs in a trace. -/
def hasCmd (x : RCmd) : List RCmd → Bool
  | [] => false
  | c :: rest => (c == x) || hasCmd x rest

/-- Whether a trace holds any destructive command. -/
def hasDestr : List RCmd → Bool
  | [] => false
  | c :: rest => c.destructive || hasDestr rest

/-- No destructive command is issued before the first backup command: every
command in the trace strictly before the first `backupCmd` is
non-destructive. -/
def noDestructiveBeforeBackup : List RCmd → Bool
  | [] => true
  | c :: rest =>
    if c == RCmd.backupCmd then true
    else (!c.destructive) && noDestructiveBeforeBackup rest

/-- If any destructive command was issued during the run, then the backup
call completed and returned a snapshot identifier, and the backup command
is in the trace. -/
def destructiveNeedsBackup {C : Type} (r : RunResult C) : Bool :=
  !(hasDestr r.trace) || (r.backupReturned && hasCmd RCmd.backupCmd r.trace)

lemma hasCmd_append (x : RCmd) (t ext : List RCmd) :
    hasCmd x (t ++ ext) = (hasCmd x t || hasCmd x ext) := by
  induction t with
  | nil => simp [hasCmd]
  | cons c rest ih => simp [hasCmd, ih, Bool.or_assoc]

lemma hasDestr_append (t ext : List RCmd) :
    hasDestr (t ++ ext) = (hasDestr t || hasDestr ext) := by
  induction t with
  | nil => simp [hasDestr]
  | cons c rest ih => simp [hasDestr, ih, Bool.or_assoc]

lemma noDBB_append_of_contains (t ext : List RCmd)
    (hc : hasCmd RCmd.backupCmd t = true)
    (h : noDestructiveBeforeBackup t = true) :
    noDestructiveBeforeBackup (t ++ ext) = true := by
  induction t with
  | nil => simp [hasCmd] at hc
  | cons c rest ih =>
    cases hb : (c == RCmd.backupCmd) with
    | true => simp [noDestructiveBeforeBackup, hb]
    | false =>
      simp only [hasCmd, hb, Bool.false_or] at hc
      simp [noDestructiveBeforeBackup, hb] at h ⊢
      exact ⟨h.1, ih hc h.2⟩

@[simp] lemma runFinally_trace {C : Type} (e : Env C) (t : List RCmd)
    (cu : Bool) (o : Outcome) (br : Bool) (bId : BackupId C) (tg : DirState C) :
    (runFinally e t cu o br bId tg).trace = t := rfl

@[simp] lemma runFinally_outcome {C : Type} (e : Env C) (t : List RCmd)
    (cu : Bool) (o : Outcome) (br : Bool) (bId : BackupId C) (tg : DirState C) :
    (runFinally e t cu o br bId tg).outcome = o := rfl

@[simp] lemma runFinally_backupReturned {C : Type} (e : Env C) (t : List RCmd)
    (cu : Bool) (o : Outcome) (br : Bool) (bId : BackupId C) (tg : DirState C) :
    (runFinally e t cu o br bId tg).backupReturned = br := rfl

@[simp] lemma runFinally_backupId {C : Type} (e : Env C) (t : List RCmd)
    (cu : Bool) (o : Outcome) (br : Bool) (bId : BackupId C) (tg : DirState C) :
    (runFinally e t cu o br bId tg).backupId = bId := rfl

@[simp] lemma runFinally_finalTarget {C : Type} (e : Env C) (t : List RCmd)
    (cu : Bool) (o : Outcome) (br : Bool) (bId : BackupId C) (tg : DirState C) :
    (runFinally e t cu o br bId tg).finalTarget = tg := rfl

@[simp] lemma runFinally_everConnected {C : Type} (e : Env C) (t : List RCmd)
    (cu : Bool) (o : Outcome) (br : Bool) (bId : BackupId C) (tg : DirState C) :
    (runFinally e t cu o br bId tg).everConnected = cu := rfl

@[simp] lemma runFinally_disposed {C : Type} (e : Env C) (t : List RCmd)
    (cu : Bool) (o : Outcome) (br : Bool) (bId : BackupId C) (tg : DirState C) :
    (runFinally e t cu o br bId tg).disposed = (cu && e.finallyConnected) := rfl

@[simp] lemma runFinally_unlinkTried {C : Type} (e : Env C) (t : List RCmd)
    (cu : Bool) (o : Outcome) (br : Bool) (bId : BackupId C) (tg : DirState C) :
    (runFinally e t cu o br bId tg).unlinkTried = e.zipOnDisk := rfl

@[simp] lemma runFinally_unlinkFailedLogged {C : Type} (e : Env C) (t : List RCmd)
    (cu : Bool) (o : Outcome) (br : Bool) (bId : BackupId C) (tg : DirState C) :
    (runFinally e t cu o br bId tg).unlinkFailedLogged = (e.zipOnDisk && !e.unlinkOk) := rfl

@[simp] lemma runFinally_exitedEarly {C : Type} (e : Env C) (t : List RCmd)
    (cu : Bool) (o : Outcome) (br : Bool) (bId : BackupId C) (tg : DirState C) :
    (runFinally e t cu o br bId tg).exitedEarly = false := rfl

/-- The catch block never changes the recorded backup identifier. -/
@[simp] lemma runCatch_backupId {C : Type} (e : Env C) (t : List RCmd)
    (cu br : Bool) (bId : BackupId C) (tg : DirState C) :
    (runCatch e t cu br bId tg).backupId = bId := by
  rcases bId <;> simp only [runCatch] <;> (try split_ifs) <;> rfl

@[simp] lemma runCatch_backupReturned {C : Type} (e : Env C) (t : List RCmd)
    (cu br : Bool) (bId : BackupId C) (tg : DirState C) :
    (runCatch e t cu br bId tg).backupReturned = br := by
  rcases bId <;> simp only [runCatch] <;> (try split_ifs) <;> rfl

@[simp] lemma runCatch_everConnected {C : Type} (e : Env C) (t : List RCmd)
    (cu br : Bool) (bId : BackupId C) (tg : DirState C) :
    (runCatch e t cu br bId tg).everConnected = cu := by
  rcases bId <;> simp only [runCatch] <;> (try split_ifs) <;> rfl

@[simp] lemma runCatch_disposed {C : Type} (e : Env C) (t : List RCmd)
    (cu br : Bool) (bId : BackupId C) (tg : DirState C) :
    (runCatch e t cu br bId tg).disposed = (cu && e.finallyConnected) := by
  rcases bId <;> simp only [runCatch] <;> (try split_ifs) <;> rfl

@[simp] lemma runCatch_unlinkTried {C : Type} (e : Env C) (t : List RCmd)
    (cu br : Bool) (bId : BackupId C) (tg : DirState C) :
    (runCatch e t cu br bId tg).unlinkTried = e.zipOnDisk := by
  rcases bId <;> simp only [runCatch] <;> (try split_ifs) <;> rfl

@[simp] lemma runCatch_unlinkFailedLogged {C : Type} (e : Env C) (t : List RCmd)
    (cu br : Bool) (bId : BackupId C) (tg : DirState C) :
    (runCatch e t cu br bId tg).unlinkFailedLogged = (e.zipOnDisk && !e.unlinkOk) := by
  rcases bId <;> simp only [runCatch] <;> (try split_ifs) <;> rfl

@[simp] lemma runCatch_exitedEarly {C : Type} (e : Env C) (t : List RCmd)
    (cu br : Bool) (bId : BackupId C) (tg : DirState C) :
    (runCatch e t cu br bId tg).exitedEarly = false := by
  rcases bId <;> simp only [runCatch] <;> (try split_ifs) <;> rfl

/-- The catch block attempts its restore command exactly when the session
is still connected and the backup identifier is a concrete path. -/
lemma runCatch_hasRestore {C : Type} (e : Env C) (t : List RCmd)
    (cu br : Bool) (bId : BackupId C) (tg : DirState C) :
    hasCmd RCmd.rollbackRestore (runCatch e t cu br bId tg).trace
      = (hasCmd RCmd.rollbackRestore t || (bId.isSnap && (cu && e.catchConnected))) := by
  rcases bId <;> simp only [runCatch] <;> (try split_ifs) <;>
    simp_all [BackupId.isSnap, hasCmd_append, hasCmd]

/-- The catch block only ever appends to the trace issued so far, and the
possible extensions are the three rollback shapes. -/
lemma runCatch_trace_cases {C : Type} (e : Env C) (t : List RCmd)
    (cu br : Bool) (bId : BackupId C) (tg : DirState C) :
    (runCatch e t cu br bId tg).trace = t ∨
    (bId.isSnap = true ∧
      ((runCatch e t cu br bId tg).trace = t ++ [RCmd.rollbackRestore] ∨
       (runCatch e t cu br bId tg).trace = t ++ [RCmd.rollbackRestore, RCmd.restartScript] ∨
       (runCatch e t cu br bId tg).trace
         = t ++ [RCmd.rollbackRestore, RCmd.restartScript, RCmd.versionQuery])) := by
  rcases bId <;> simp only [runCatch] <;> (try split_ifs) <;> simp [BackupId.isSnap]

/-- The backup-before-mutate facts are preserved by the catch block. -/
lemma runCatch_c1 {C : Type} (e : Env C) (t : List RCmd)
    (cu br : Bool) (bId : BackupId C) (tg : DirState C)
    (h1 : noDestructiveBeforeBackup t = true)
    (h2 : hasDestr t = true → br = true ∧ hasCmd RCmd.backupCmd t = true)
    (h3 : bId.isSnap = true → br = true ∧ hasCmd RCmd.backupCmd t = true) :
    noDestructiveBeforeBackup (runCatch e t cu br bId tg).trace = true ∧
    destructiveNeedsBackup (runCatch e t cu br bId tg) = true := by
  rcases runCatch_trace_cases e t cu br bId tg with h | ⟨hsnap, h⟩
  · refine ⟨by rw [h]; exact h1, ?_⟩
    unfold destructiveNeedsBackup
    rw [h, runCatch_backupReturned]
    cases hd : hasDestr t
    · simp [hd]
    · rcases h2 hd with ⟨hbr, hbc⟩
      simp [hd, hbr, hbc]
  · rcases h3 hsnap with ⟨hbr, hbc⟩
    subst hbr
    have htr : noDestructiveBeforeBackup (runCatch e t cu true bId tg).trace = true := by
      rcases h with h | h | h <;> rw [h] <;> exact noDBB_append_of_contains _ _ hbc h1
    refine ⟨htr, ?_⟩
    unfold destructiveNeedsBackup
    rw [runCatch_backupReturned]
    rcases h with h | h | h <;>
      simp [h, hasCmd_append, hbc]

lemma deployAfterBackup_c1 {C : Type} (e : Env C) (c : C) :
    noDestructiveBeforeBackup (deployAfterBackup e preTrace (BackupId.snap c)
      (DirState.filled c)).trace = true ∧
    destructiveNeedsBackup (deployAfterBackup e preTrace (BackupId.snap c)
      (DirState.filled c)) = true := by
  unfold deployAfterBackup
  split_ifs
  all_goals first
    | (apply runCatch_c1 <;>
        simp [noDestructiveBeforeBackup, hasDestr, hasCmd, RCmd.destructive, BackupId.isSnap,
          preTrace])
    | (refine ⟨?_, ?_⟩
       · rw [runFinally_trace]
         simp [noDestructiveBeforeBackup, hasDestr, hasCmd, RCmd.destructive, preTrace]
       · unfold destructiveNeedsBackup
         rw [runFinally_trace, runFinally_backupReturned]
         simp [hasDestr, hasCmd, RCmd.destructive, preTrace])

/-- C1: in every deployment run, no destructive remote mutation (artifact
extraction, dependency installation plus build, or service restart) is
executed before the backup step has completed and returned a snapshot
identifier: the part of the trace before the backup command holds no
destructive command, and a run whose trace holds any destructive command
has a completed backup call in its trace. -/
theorem backup_before_mutate (C : Type) (e : Env C) :
    noDestructiveBeforeBackup (deploy e).trace = true ∧
    destructiveNeedsBackup (deploy e) = true := by
  unfold deploy
  repeat' split
  all_goals first
    | exact deployAfterBackup_c1 e _
    | (apply runCatch_c1 <;>
        simp [noDestructiveBeforeBackup, hasDestr, hasCmd, RCmd.destructive, BackupId.isSnap,
          preTrace])
    | (refine ⟨?_, ?_⟩ <;>
        simp [noDestructiveBeforeBackup, destructiveNeedsBackup, hasDestr, hasCmd,
          RCmd.destructive])

/-! ### Further structural lemmas about the catch block and the mutating
tail, used by the remaining claims. -/

lemma mkdirP_eq_filled {C : Type} (s : DirState C) (c : C) :
    mkdirP s = DirState.filled c ↔ s = DirState.filled c := by
  cases s <;> simp [mkdirP]

/-- With anything but a concrete snapshot recorded, the catch block only
logs and falls through to the finally block. -/
lemma runCatch_not_snap {C : Type} (e : Env C) (t : List RCmd)
    (cu br : Bool) (bId : BackupId C) (tg : DirState C)
    (h : bId.isSnap = false) :
    runCatch e t cu br bId tg
      = runFinally e t cu Outcome.failedNoRollback br bId tg := by
  rcases bId <;> simp_all [BackupId.isSnap, runCatch]

/-- With the session no longer connected, the catch block only logs and
falls through to the finally block. -/
lemma runCatch_not_connected {C : Type} (e : Env C) (t : List RCmd)
    (cu br : Bool) (bId : BackupId C) (tg : DirState C)
    (h : (cu && e.catchConnected) = false) :
    runCatch e t cu br bId tg
      = runFinally e t cu Outcome.failedNoRollback br bId tg := by
  rcases bId <;> simp only [runCatch] <;> simp [h]

/-- With a concrete snapshot, a live session, and all three rollback
commands resolving, the catch block restores the snapshot content and
reports a completed rollback. -/
lemma runCatch_rollback_all_ok {C : Type} (e : Env C) (t : List RCmd)
    (cu br : Bool) (c : C) (tg : DirState C)
    (hconn : (cu && e.catchConnected) = true) (hrb : e.rollbackOk = true)
    (hr2 : e.restart2Ok = true) (hv2 : e.version2Ok = true) :
    runCatch e t cu br (BackupId.snap c) tg
      = runFinally e (t ++ [RCmd.rollbackRestore, RCmd.restartScript, RCmd.versionQuery])
          cu Outcome.rolledBack br (BackupId.snap c) (DirState.filled c) := by
  simp only [runCatch, hconn, hrb, hr2, hv2, if_true]

@[simp] lemma deployAfterBackup_backupId {C : Type} (e : Env C) (pre : List RCmd)
    (bId : BackupId C) (tg : DirState C) :
    (deployAfterBackup e pre bId tg).backupId = bId := by
  unfold deployAfterBackup
  split_ifs <;> simp

@[simp] lemma deployAfterBackup_backupReturned {C : Type} (e : Env C) (pre : List RCmd)
    (bId : BackupId C) (tg : DirState C) :
    (deployAfterBackup e pre bId tg).backupReturned = true := by
  unfold deployAfterBackup
  split_ifs <;> simp

@[simp] lemma deployAfterBackup_everConnected {C : Type} (e : Env C) (pre : List RCmd)
    (bId : BackupId C) (tg : DirState C) :
    (deployAfterBackup e pre bId tg).everConnected = true := by
  unfold deployAfterBackup
  split_ifs <;> simp

@[simp] lemma deployAfterBackup_disposed {C : Type} (e : Env C) (pre : List RCmd)
    (bId : BackupId C) (tg : DirState C) :
    (deployAfterBackup e pre bId tg).disposed = e.finallyConnected := by
  unfold deployAfterBackup
  split_ifs <;> simp

@[simp] lemma deployAfterBackup_unlinkTried {C : Type} (e : Env C) (pre : List RCmd)
    (bId : BackupId C) (tg : DirState C) :
    (deployAfterBackup e pre bId tg).unlinkTried = e.zipOnDisk := by
  unfold deployAfterBackup
  split_ifs <;> simp

@[simp] lemma deployAfterBackup_unlinkFailedLogged {C : Type} (e : Env C) (pre : List RCmd)
    (bId : BackupId C) (tg : DirState C) :
    (deployAfterBackup e pre bId tg).unlinkFailedLogged = (e.zipOnDisk && !e.unlinkOk) := by
  unfold deployAfterBackup
  split_ifs <;> simp

@[simp] lemma deployAfterBackup_exitedEarly {C : Type} (e : Env C) (pre : List RCmd)
    (bId : BackupId C) (tg : DirState C) :
    (deployAfterBackup e pre bId tg).exitedEarly = false := by
  unfold deployAfterBackup
  split_ifs <;> simp

/-- An environment identical to `envAllOk` except that the target directory
is empty before the run. -/
def envEmptyDir : Env Nat :=
  { envAllOk with target := DirState.emptyDir }

/-- C2 counterexample: a run whose target directory is empty before
deployment never obtains the sentinel snapshot the claim speaks of — the
installation gate refuses it with `process.exit(1)` before the backup step,
so no backup command is ever issued; and even the failure handler itself,
handed the sentinel identifier after some failure, issues no command at
all, leaves the target directory exactly as it was (it is not removed),
and reports that no rollback was possible.  So a failure after backup on
an empty-directory run never causes the target directory to be removed. -/
theorem sentinel_claim_counterexample :
    (deploy envEmptyDir).outcome = Outcome.exitedNotInstalled ∧
    hasCmd RCmd.backupCmd (deploy envEmptyDir).trace = false ∧
    (runCatch envEmptyDir [RCmd.backupCmd] true true BackupId.sentinel
        DirState.emptyDir).trace = [RCmd.backupCmd] ∧
    (runCatch envEmptyDir [RCmd.backupCmd] true true BackupId.sentinel
        DirState.emptyDir).finalTarget = DirState.emptyDir ∧
    (runCatch envEmptyDir [RCmd.backupCmd] true true BackupId.sentinel
        DirState.emptyDir).outcome = Outcome.failedNoRollback := by
  refine ⟨by decide, by decide, rfl, rfl, rfl⟩

/-- C2 amended: a sentinel snapshot is never recorded by a run — a run
whose target directory is empty or absent is refused by the installation
gate before the backup step, issuing neither a backup nor any rollback
command — and the failure handler, on any identifier that is not a
concrete snapshot path, performs no rollback action whatsoever: it appends
no command, leaves the target directory untouched, and falls through to
cleanup with the plain failure outcome (the target directory is never
removed for a sentinel snapshot). -/
theorem sentinel_no_rollback (C : Type) (e : Env C) (t : List RCmd)
    (cu br : Bool) (tgt : DirState C) :
    (deploy e).backupId ≠ BackupId.sentinel ∧
    ((e.target = DirState.emptyDir ∨ e.target = DirState.absent) →
      hasCmd RCmd.backupCmd (deploy e).trace = false ∧
      hasCmd RCmd.rollbackRestore (deploy e).trace = false ∧
      ((deploy e).outcome = Outcome.failedNoRollback ∨
       (deploy e).outcome = Outcome.exitedNotInstalled)) ∧
    runCatch e t cu br BackupId.sentinel tgt
      = runFinally e t cu Outcome.failedNoRollback br BackupId.sentinel tgt := by
  refine ⟨?_, ?_, rfl⟩
  · unfold deploy
    repeat' split
    all_goals simp [runCatch_backupId, deployAfterBackup_backupId]
  · intro h
    unfold deploy
    repeat' split
    all_goals first
      | (rw [runCatch_not_snap _ _ _ _ _ _ (by simp [BackupId.isSnap])]
         simp [hasCmd]
         done)
      | (rcases h with h | h <;> simp_all [mkdirP, hasCmd])

/-- C2 amendment witness at a concrete empty-directory run. -/
theorem sentinel_no_rollback_witness :
    hasCmd RCmd.backupCmd (deploy envEmptyDir).trace = false ∧
    hasCmd RCmd.rollbackRestore (deploy envEmptyDir).trace = false ∧
    ((deploy envEmptyDir).outcome = Outcome.failedNoRollback ∨
     (deploy envEmptyDir).outcome = Outcome.exitedNotInstalled) :=
  (sentinel_no_rollback Nat envEmptyDir [] true true DirState.emptyDir).2.1 (Or.inl rfl)

/-- An environment in which the remote build command fails and the SSH
connection is found dead in the failure handler. -/
def envBuildFailDrop : Env Nat :=
  { envAllOk with buildOk := false, catchConnected := false }

/-- C3 counterexample: a run that fails (the build command) after a
concrete snapshot `snap 1` of the pre-deployment content was created, but
whose session is no longer connected in the failure handler: no restore
command and no restart is issued, the run ends as a plain failure rather
than a rollback, and the target directory is left with the half-built
content `filled 5`, not its pre-deployment content `filled 1`. -/
theorem rollback_claim_counterexample :
    (deploy envBuildFailDrop).backupId = BackupId.snap 1 ∧
    (deploy envBuildFailDrop).outcome = Outcome.failedNoRollback ∧
    hasCmd RCmd.rollbackRestore (deploy envBuildFailDrop).trace = false ∧
    hasCmd RCmd.restartScript (deploy envBuildFailDrop).trace = false ∧
    (deploy envBuildFailDrop).finalTarget = DirState.filled 5 ∧
    envBuildFailDrop.target = DirState.filled 1 := by
  refine ⟨by decide, by decide, by decide, by decide, by decide, rfl⟩

set_option maxHeartbeats 1000000 in
/-- The mutating tail after a concrete snapshot: when it does not succeed
and the session is still connected with all three rollback commands
resolving, the result is a completed rollback whose final target is the
snapshot content and whose trace ends with the restore command followed by
the restart. -/
lemma deployAfterBackup_c3 {C : Type} (e : Env C) (c : C)
    (hconn : e.catchConnected = true) (hrb : e.rollbackOk = true)
    (hr2 : e.restart2Ok = true) (hv2 : e.version2Ok = true)
    (hf : (deployAfterBackup e preTrace (BackupId.snap c)
            (DirState.filled c)).outcome ≠ Outcome.success) :
    (deployAfterBackup e preTrace (BackupId.snap c)
        (DirState.filled c)).outcome = Outcome.rolledBack ∧
    (deployAfterBackup e preTrace (BackupId.snap c)
        (DirState.filled c)).finalTarget = DirState.filled c ∧
    List.IsSuffix [RCmd.rollbackRestore, RCmd.restartScript, RCmd.versionQuery]
      (deployAfterBackup e preTrace (BackupId.snap c) (DirState.filled c)).trace := by
  unfold deployAfterBackup at hf ⊢
  split_ifs at hf ⊢
  all_goals first
    | (exact absurd (by simp) hf)
    | (rw [runCatch_rollback_all_ok _ _ _ _ _ _ (by simp [hconn]) hrb hr2 hv2]
       refine ⟨by simp, by simp, ?_⟩
       rw [runFinally_trace]
       exact ⟨_, rfl⟩)

/-- A run that records a concrete snapshot `snap c` necessarily passed all
prechecks with a target directory already holding content `c`, and its
result is that of the mutating tail. -/
lemma deploy_snap_shape {C : Type} (e : Env C) (c : C) :
    (deploy e).backupId = BackupId.snap c →
    deploy e = deployAfterBackup e preTrace (BackupId.snap c) (DirState.filled c) ∧
    e.target = DirState.filled c := by
  unfold deploy
  repeat' split
  all_goals intro hb
  all_goals first
    | (rw [runCatch_backupId] at hb; exact absurd hb (by simp))
    | (simp at hb
       done)
    | (simp_all [mkdirP_eq_filled]
       done)

/-- C3 amended: for every run that fails after a concrete (non-sentinel)
snapshot was created, PROVIDED the session is still connected in the
failure handler and the restore command, the restart script and its
version query all resolve, the rollback removes the target directory and
renames the snapshot into its place (the single restore command), then
invokes the supervisor restart; the run ends as rolled-back, and the
target directory afterwards holds exactly its pre-deployment content.
Without the connectivity proviso the property is false
(see the counterexample). -/
theorem rollback_restores (C : Type) (e : Env C) (c : C)
    (hb : (deploy e).backupId = BackupId.snap c)
    (hf : (deploy e).outcome ≠ Outcome.success)
    (hconn : e.catchConnected = true) (hrb : e.rollbackOk = true)
    (hr2 : e.restart2Ok = true) (hv2 : e.version2Ok = true) :
    (deploy e).outcome = Outcome.rolledBack ∧
    (deploy e).finalTarget = e.target ∧
    List.IsSuffix [RCmd.rollbackRestore, RCmd.restartScript, RCmd.versionQuery]
      (deploy e).trace := by
  obtain ⟨hshape, htgt⟩ := deploy_snap_shape e c hb
  rw [hshape] at hf ⊢
  rw [htgt]
  exact deployAfterBackup_c3 e c hconn hrb hr2 hv2 hf

/-- C3 amendment witness: build failure with a live session and resolving
rollback commands. -/
theorem rollback_restores_witness :
    (deploy { envAllOk with buildOk := false }).outcome = Outcome.rolledBack ∧
    (deploy { envAllOk with buildOk := false }).finalTarget
      = { envAllOk with buildOk := false }.target ∧
    List.IsSuffix [RCmd.rollbackRestore, RCmd.restartScript, RCmd.versionQuery]
      (deploy { envAllOk with buildOk := false }).trace :=
  rollback_restores Nat { envAllOk with buildOk := false } 1 (by decide) (by decide)
    rfl rfl rfl rfl

/-- An environment in which the target content does not count as a strapi
installation, so the run is refused at the installation gate. -/
def envNotInstalled : Env Nat :=
  { envAllOk with hasStrapi := fun _ => false }

/-- C6 counterexample: the strapi-not-installed refusal is a terminal
precheck failure reached with the session connected and the local archive
on disk, yet `process.exit(1)` ends the process before the finally block:
the session is never disposed and the archive is never deleted. -/
theorem cleanup_claim_counterexample :
    (deploy envNotInstalled).outcome = Outcome.exitedNotInstalled ∧
    envNotInstalled.connectOk = true ∧
    envNotInstalled.finallyConnected = true ∧
    envNotInstalled.zipOnDisk = true ∧
    (deploy envNotInstalled).everConnected = true ∧
    (deploy envNotInstalled).disposed = false ∧
    (deploy envNotInstalled).unlinkTried = false := by
  refine ⟨by decide, rfl, rfl, rfl, by decide, by decide, by decide⟩

/-- C6 amended: on every terminal outcome EXCEPT the strapi-not-installed
refusal (which terminates the process immediately, skipping all cleanup),
the finally block runs: the session is disposed iff it is still connected,
the local archive removal is attempted iff the file exists, and a failed
removal is logged without affecting anything else. -/
theorem cleanup_on_termination (C : Type) (e : Env C) :
    (deploy e).outcome ≠ Outcome.exitedNotInstalled →
    (deploy e).disposed = ((deploy e).everConnected && e.finallyConnected) ∧
    (deploy e).unlinkTried = e.zipOnDisk ∧
    (deploy e).unlinkFailedLogged = (e.zipOnDisk && !e.unlinkOk) ∧
    (deploy e).exitedEarly = false := by
  unfold deploy
  repeat' split
  all_goals intro h
  all_goals first
    | (refine ⟨?_, ?_, ?_, ?_⟩ <;> simp
       done)
    | (simp at h)

/-- C6 amendment witness at a fully successful run. -/
theorem cleanup_on_termination_witness :
    (deploy envAllOk).disposed
        = ((deploy envAllOk).everConnected && envAllOk.finallyConnected) ∧
    (deploy envAllOk).unlinkTried = envAllOk.zipOnDisk ∧
    (deploy envAllOk).unlinkFailedLogged = (envAllOk.zipOnDisk && !envAllOk.unlinkOk) ∧
    (deploy envAllOk).exitedEarly = false :=
  cleanup_on_termination Nat envAllOk (by decide)

/-- An environment whose free-space query prints `980M`: less than one
gigabyte free on the volume. -/
def envLowDisk : Env Nat :=
  { envAllOk with dfOut := some ⟨980, DfUnit.M⟩ }

/-- C8, the failing input: when `df -h` reports `980M` — less than the one
gigabyte minimum — `parseFloat` reads 980 and the `< 1` comparison passes,
so the check (whose own comment says `Less than 1GB available`) raises no
resource error; the run proceeds to issue destructive mutation commands and
even completes, instead of terminating as a precheck failure. -/
theorem disk_check_unit_bug :
    dfFreeGB ⟨980, DfUnit.M⟩ < 1 ∧
    checkDiskSpaceThrows ⟨980, DfUnit.M⟩ = false ∧
    (deploy envLowDisk).outcome = Outcome.success ∧
    hasDestr (deploy envLowDisk).trace = true := by
  refine ⟨?_, ?_, by decide, by decide⟩
  · norm_num [dfFreeGB, DfUnit.gb]
  · simp only [checkDiskSpaceThrows, parseFloatDf]
    norm_num

set_option maxHeartbeats 1600000 in
/-- In the mutating tail (running with a concrete snapshot), the restore
command appears in the trace only when the handler found the session
connected; and a failure with a dead session ends as a plain failure with
no restore command at all. -/
lemma deployAfterBackup_c9 {C : Type} (e : Env C) (c : C) :
    (hasCmd RCmd.rollbackRestore
        (deployAfterBackup e preTrace (BackupId.snap c) (DirState.filled c)).trace = true →
      e.catchConnected = true) ∧
    ((deployAfterBackup e preTrace (BackupId.snap c) (DirState.filled c)).outcome
        ≠ Outcome.success →
      e.catchConnected = false →
      (deployAfterBackup e preTrace (BackupId.snap c) (DirState.filled c)).outcome
          = Outcome.failedNoRollback ∧
      hasCmd RCmd.rollbackRestore
        (deployAfterBackup e preTrace (BackupId.snap c) (DirState.filled c)).trace = false) := by
  constructor
  · unfold deployAfterBackup
    split_ifs
    all_goals intro hr
    all_goals first
      | (rw [runCatch_hasRestore] at hr
         simp [hasCmd, BackupId.isSnap, preTrace] at hr
         exact hr)
      | (rw [runFinally_trace] at hr
         simp [hasCmd, preTrace] at hr)
  · unfold deployAfterBackup
    split_ifs
    all_goals intro hf hcc
    all_goals first
      | (have hc2 : (true && e.catchConnected) = false := by simp [hcc]
         rw [runCatch_not_connected _ _ _ _ _ _ hc2]
         refine ⟨by simp, ?_⟩
         rw [runFinally_trace]
         simp [hasCmd, preTrace]
         done)
      | (simp at hf)

/-- C9: the failure handler attempts a rollback only when the session is
still connected and the recorded backup identifier is a concrete
(non-sentinel) snapshot path; for every failing run where the connection
dropped, the backup is the sentinel, or no backup step ran, no restore or
removal command is issued and the run still terminates through the normal
cleanup path with the plain-failure outcome, never the rollback-failed
one. -/
theorem rollback_preconditions (C : Type) (e : Env C) :
    (hasCmd RCmd.rollbackRestore (deploy e).trace = true →
      e.connectOk = true ∧ e.catchConnected = true ∧ (deploy e).backupId.isSnap = true) ∧
    ((deploy e).outcome ≠ Outcome.success →
     (deploy e).outcome ≠ Outcome.exitedNotInstalled →
     (e.catchConnected = false ∨ (deploy e).backupId.isSnap = false) →
      (deploy e).outcome = Outcome.failedNoRollback ∧
      hasCmd RCmd.rollbackRestore (deploy e).trace = false ∧
      (deploy e).disposed = ((deploy e).everConnected && e.finallyConnected) ∧
      (deploy e).unlinkTried = e.zipOnDisk) := by
  constructor
  · unfold deploy
    repeat' split
    all_goals intro hr
    all_goals first
      | (rw [runCatch_hasRestore] at hr
         simp [hasCmd, BackupId.isSnap] at hr)
      | (simp [hasCmd] at hr)
      | (refine ⟨by simp_all, (deployAfterBackup_c9 e _).1 hr, by simp [BackupId.isSnap]⟩)
  · unfold deploy
    repeat' split
    all_goals intro h1 h2 h3
    all_goals first
      | (rw [runCatch_not_snap _ _ _ _ _ _ (by simp [BackupId.isSnap])]
         refine ⟨by simp, ?_, by simp, by simp⟩
         rw [runFinally_trace]
         simp [hasCmd]
         done)
      | (rcases h3 with h3 | h3
         · obtain ⟨ho, hrr⟩ := (deployAfterBackup_c9 e _).2 h1 h3
           exact ⟨ho, hrr, by simp, by simp⟩
         · simp [BackupId.isSnap] at h3
         )
      | (simp at h2)

/-- C9 witness: with a live session the build failure leads to a rollback
attempt (restore command in the trace, implying the preconditions); with a
dead session the same failure performs no rollback and ends as a plain
failure through the normal cleanup path. -/
theorem rollback_preconditions_witness :
    ((deploy envBuildFailDrop).outcome = Outcome.failedNoRollback ∧
      hasCmd RCmd.rollbackRestore (deploy envBuildFailDrop).trace = false ∧
      (deploy envBuildFailDrop).disposed
        = ((deploy envBuildFailDrop).everConnected && envBuildFailDrop.finallyConnected) ∧
      (deploy envBuildFailDrop).unlinkTried = envBuildFailDrop.zipOnDisk) ∧
    (envAllOk.connectOk = true ∧ envAllOk.catchConnected = true ∧
      (deploy { envAllOk with buildOk := false }).backupId.isSnap = true) :=
  ⟨(rollback_preconditions Nat envBuildFailDrop).2 (by decide) (by decide) (Or.inl rfl),
   (rollback_preconditions Nat { envAllOk with buildOk := false }).1 (by decide)⟩

end GuruavatarDeploy
